import Mathlib

set_option maxRecDepth 8192

/-!
Shallow embedding of the PartnerGrid client core: the GitHub API client
(`src/git-partner-finder-main/src/lib/github.ts`) and the search
orchestration logic of the main view (`src/unnamed/part_001`).

Modelling conventions:
* ISO timestamp strings (`created_at`, `Date.now()`) are modelled by their
  epoch-millisecond value as an `Int`.
* JavaScript truthiness on optional fields is modelled explicitly:
  a missing value and the empty string (resp. the number 0) are falsy.
* `localStorage` is modelled as explicit state: the response cache is an
  association list keyed by cache key, the rate-limit singleton is an
  `Option RateLimitInfo` field.
* The network is modelled by passing the would-be HTTP response as an
  argument; the number of network exchanges performed is returned so that
  cache-hit claims can state that no exchange happened.
* `btoa` in the cache-key derivation is an injective encoding of the URL;
  it is modelled by the identity encoding (the key is the prefixed URL).
-/

/-- The three experience tiers of `calculateExperienceLevel`. -/
inductive ExpLevel where
  | junior
  | mid
  | senior
deriving DecidableEq, Repr

/-- Sort field of `SearchFilters.sortBy`. -/
inductive SortBy where
  | followers
  | repositories
  | joined
deriving DecidableEq, Repr

/-- Sort direction of `SearchFilters.order`. -/
inductive SortOrder where
  | asc
  | desc
deriving DecidableEq, Repr

/-- Provider profile record (interface `GitHubUser` in `github.ts`);
date strings are modelled by their epoch-millisecond value. -/
structure GitHubUser where
  id : Nat
  login : String
  avatar_url : String
  html_url : String
  name : Option String
  company : Option String
  blog : Option String
  location : Option String
  email : Option String
  bio : Option String
  public_repos : Nat
  public_gists : Nat
  followers : Nat
  following : Nat
  created_at : Int
  updated_at : Int
deriving DecidableEq, Repr

/-- User intent (interface `SearchFilters` in `github.ts`). -/
structure SearchFilters where
  query : String
  language : Option String
  location : Option String
  minRepos : Option Nat
  minFollowers : Option Nat
  sortBy : Option SortBy
  order : Option SortOrder
  experienceLevel : Option ExpLevel
deriving DecidableEq, Repr

/-- JavaScript truthiness of an optional string: missing and `""` are falsy. -/
def strTruthy : Option String → Bool
  | none => false
  | some s => !(s = "")

/-- JavaScript truthiness of an optional number: missing and `0` are falsy. -/
def natTruthy : Option Nat → Bool
  | none => false
  | some n => !(n = 0)

/-- `CACHE_DURATION = 5 * 60 * 1000` milliseconds. -/
def CACHE_DURATION : Int := 5 * 60 * 1000

/-- Milliseconds in the 365-day year used by `calculateExperienceLevel`. -/
def msPerYear : Int := 1000 * 60 * 60 * 24 * 365

/-- `accountAge / (1000*60*60*24*365)` as an exact rational. -/
def yearsActive (now createdMs : Int) : ℚ :=
  ((now - createdMs : Int) : ℚ) / ((msPerYear : Int) : ℚ)

/-- `calculateExperienceLevel(createdAt, publicRepos)` from `github.ts`;
`now` is `Date.now()`, `createdMs` the parsed `createdAt`. -/
def calculateExperienceLevel (now createdMs : Int) (publicRepos : Nat) : ExpLevel :=
  let y := yearsActive now createdMs
  if y ≤ 5/2 ∨ publicRepos ≤ 15 then .junior
  else if 5 ≤ y ∨ 60 ≤ publicRepos then .senior
  else .mid

/-- The query string built inside `searchUsers` in `github.ts`, by the same
sequence of conditional appends as the source. -/
def buildQuery (f : SearchFilters) : String :=
  let query := f.query
  let query := if strTruthy f.language then query ++ " language:" ++ (f.language.getD ("")) else query
  let query := if strTruthy f.location then
    query ++ " location:\"" ++ (f.location.getD ("")) ++ "\"" else query
  let query := if natTruthy f.minRepos then
    query ++ " repos:>=" ++ toString (f.minRepos.getD 0) else query
  let query := if natTruthy f.minFollowers then
    query ++ " followers:>=" ++ toString (f.minFollowers.getD 0) else query
  query ++ " type:user"

/-- The `language:` clause contributed by the language field alone. -/
def langClause (f : SearchFilters) : String :=
  if strTruthy f.language then " language:" ++ (f.language.getD ("")) else ""

/-- The `location:"..."` clause contributed by the location field alone. -/
def locClause (f : SearchFilters) : String :=
  if strTruthy f.location then " location:\"" ++ (f.location.getD ("")) ++ "\"" else ""

/-- The `repos:>=` clause contributed by the minRepos field alone. -/
def reposClause (f : SearchFilters) : String :=
  if natTruthy f.minRepos then " repos:>=" ++ toString (f.minRepos.getD 0) else ""

/-- The `followers:>=` clause contributed by the minFollowers field alone. -/
def followersClause (f : SearchFilters) : String :=
  if natTruthy f.minFollowers then " followers:>=" ++ toString (f.minFollowers.getD 0) else ""

/-- Rate-limit snapshot (interface `RateLimitInfo`); `reset` already in ms. -/
structure RateLimitInfo where
  remaining : Nat
  reset : Int
  total : Nat
deriving DecidableEq, Repr

/-- The three `x-ratelimit-*` response headers as `headers.get` returns them
(`none` when absent). -/
structure RateHeaders where
  remaining : Option String
  reset : Option String
  total : Option String
deriving DecidableEq, Repr

/-- `parseInt` on the all-digit decimal strings GitHub sends in rate
headers: the usual base-10 accumulation over the characters. -/
def parseIntD (s : String) : Nat :=
  s.toList.foldl (fun acc c => acc * 10 + (c.toNat - 48)) 0

/-- `updateRateLimit(headers)` from `github.ts`: overwrite the stored
singleton only when all three headers are truthy. -/
def updateRateLimit (st : Option RateLimitInfo) (h : RateHeaders) : Option RateLimitInfo :=
  if strTruthy h.remaining && strTruthy h.reset && strTruthy h.total then
    some { remaining := parseIntD (h.remaining.getD (""))
           reset := (parseIntD (h.reset.getD ("")) : Int) * 1000
           total := parseIntD (h.total.getD ("")) }
  else st

/-- The response cache persisted in `localStorage`: entries
`(cacheKey, data, timestamp)`. -/
def Cache (α : Type) : Type := List (String × α × Int)

/-- Look a key up in the cache. -/
def cacheFind {α : Type} (c : Cache α) (k : String) : Option (α × Int) :=
  match List.find? (fun e => e.1 = k) c with
  | none => none
  | some e => some e.2

/-- `localStorage.removeItem` on a cache key. -/
def cacheRemove {α : Type} (c : Cache α) (k : String) : Cache α :=
  List.filter (fun e => !(e.1 = k)) c

/-- `setCachedData`: store `{data, timestamp: Date.now()}` under the key. -/
def cacheSet {α : Type} (c : Cache α) (k : String) (d : α) (now : Int) : Cache α :=
  (k, d, now) :: cacheRemove c k

/-- `getCachedData`: absent on missing key; a stale entry
(`now - timestamp > CACHE_DURATION`, strict) is removed and reported absent;
otherwise the stored payload is returned. Returns the possibly-updated cache. -/
def getCachedData {α : Type} (c : Cache α) (k : String) (now : Int) : Option α × Cache α :=
  match cacheFind c k with
  | none => (none, c)
  | some (d, ts) => if now - ts > CACHE_DURATION then (none, cacheRemove c k) else (some d, c)

/-- `getCacheKey`: prefix plus an injective encoding of the URL (`btoa`
modelled as the identity encoding). -/
def getCacheKey (url : String) : String := "github_cache_" ++ url

/-- Failure taxonomy of `fetchWithCache` (the two `throw new Error` sites). -/
inductive FetchError where
  | rateLimitExceeded
  | requestFailed (status : Nat) (statusText : String)
deriving DecidableEq, Repr

/-- The exact error message each throw site produces. -/
def FetchError.message : FetchError → String
  | .rateLimitExceeded => "Rate limit exceeded. Please try again later or add a GitHub token."
  | .requestFailed status statusText =>
      "GitHub API error: " ++ toString status ++ " " ++ statusText

/-- An HTTP response as `fetch` resolves it, body already decoded. -/
structure HttpResponse (α : Type) where
  ok : Bool
  status : Nat
  statusText : String
  headers : RateHeaders
  body : α

/-- The `localStorage`-backed state a `GitHubAPI` instance reads and writes. -/
structure ClientState (α : Type) where
  cache : Cache α
  rateLimit : Option RateLimitInfo

/-- `fetchWithCache(url)` from `github.ts`. The response the network would
deliver is passed in; the third component counts network exchanges (0 on a
cache hit, 1 otherwise). The source's `if (cached)` truthiness test is the
some-test here: every payload this client caches is a JSON object or
array, which is always truthy. -/
def fetchWithCache {α : Type} (st : ClientState α) (url : String) (now : Int)
    (resp : HttpResponse α) : Except FetchError α × ClientState α × Nat :=
  let key := getCacheKey url
  let gc := getCachedData st.cache key now
  match gc.1 with
  | some d => (Except.ok d, { st with cache := gc.2 }, 0)
  | none =>
    let rl := updateRateLimit st.rateLimit resp.headers
    if !resp.ok then
      if resp.status = 403 then
        (Except.error FetchError.rateLimitExceeded, { cache := gc.2, rateLimit := rl }, 1)
      else
        (Except.error (FetchError.requestFailed resp.status resp.statusText),
         { cache := gc.2, rateLimit := rl }, 1)
    else
      (Except.ok resp.body, { cache := cacheSet gc.2 key resp.body now, rateLimit := rl }, 1)

/-- `GITHUB_API_BASE` from `github.ts`. -/
def GITHUB_API_BASE : String := "https://api.github.com"

/-- `getUser(username)`: a cached fetch of the user profile URL. -/
def getUser {α : Type} (st : ClientState α) (username : String) (now : Int)
    (resp : HttpResponse α) : Except FetchError α × ClientState α × Nat :=
  fetchWithCache st (GITHUB_API_BASE ++ "/users/" ++ username) now resp

/-- `String.prototype.includes`: does `pat` occur as a contiguous substring? -/
def charListIncludes (pat : List Char) : List Char → Bool
  | [] => pat.isEmpty
  | c :: t => pat.isPrefixOf (c :: t) || charListIncludes pat t

/-- `s.includes(pat)` on strings. -/
def strIncludes (s pat : String) : Bool := charListIncludes pat.toList s.toList

/-- Language filter of `applyClientSideFilters`: case-insensitive substring
match of the language against bio or login. -/
def langFilterPred (f : SearchFilters) (u : GitHubUser) : Bool :=
  let bio := (u.bio.getD ("")).toLower
  let login := u.login.toLower
  let language := (f.language.getD ("")).toLower
  strIncludes bio language || strIncludes login language

/-- Location filter of `applyClientSideFilters`: case-insensitive substring
match against the profile location; a missing location excludes the record. -/
def locFilterPred (f : SearchFilters) (u : GitHubUser) : Bool :=
  match u.location with
  | none => false
  | some loc => strIncludes loc.toLower ((f.location.getD ("")).toLower)

/-- Minimum-repositories filter of `applyClientSideFilters`. -/
def repoFilterPred (f : SearchFilters) (u : GitHubUser) : Bool :=
  decide (f.minRepos.getD 0 ≤ u.public_repos)

/-- Minimum-followers filter of `applyClientSideFilters`. -/
def folFilterPred (f : SearchFilters) (u : GitHubUser) : Bool :=
  decide (f.minFollowers.getD 0 ≤ u.followers)

/-- Experience-level filter of `applyClientSideFilters`. -/
def expFilterPred (now : Int) (f : SearchFilters) (u : GitHubUser) : Bool :=
  decide (calculateExperienceLevel now u.created_at u.public_repos
    = f.experienceLevel.getD ExpLevel.junior)

/-- One conditional filter stage: applied only when its guard is truthy. -/
def filterStep (g : Bool) (p : GitHubUser → Bool) (l : List GitHubUser) : List GitHubUser :=
  if g then l.filter p else l

/-- The five conditional filter stages of `applyClientSideFilters`, in
source order: language, location, minRepos, minFollowers, experienceLevel. -/
def filterChain (now : Int) (users : List GitHubUser) (f : SearchFilters) : List GitHubUser :=
  filterStep f.experienceLevel.isSome (expFilterPred now f)
    (filterStep (natTruthy f.minFollowers) (folFilterPred f)
      (filterStep (natTruthy f.minRepos) (repoFilterPred f)
        (filterStep (strTruthy f.location) (locFilterPred f)
          (filterStep (strTruthy f.language) (langFilterPred f) users))))

/-- The numeric sort key of the comparator in `applyClientSideFilters`;
the switch default (including an unset sortBy) is followers. -/
def sortVal (f : SearchFilters) (u : GitHubUser) : Int :=
  match f.sortBy with
  | some SortBy.repositories => u.public_repos
  | some SortBy.joined => u.created_at
  | _ => u.followers

/-- The comparator `order === 'desc' ? valueB - valueA : valueA - valueB`
as the total boolean relation a stable sort consumes: `userLe f a b` holds
when the comparator on `(a, b)` is `≤ 0`, i.e. `a` may stay before `b`. -/
def userLe (f : SearchFilters) (a b : GitHubUser) : Bool :=
  if f.order = some SortOrder.desc then decide (sortVal f b ≤ sortVal f a)
  else decide (sortVal f a ≤ sortVal f b)

/-- `applyClientSideFilters` from the main view: the five conditional
filters, then a stable sort by the comparator. -/
def applyClientSideFilters (now : Int) (users : List GitHubUser) (f : SearchFilters) :
    List GitHubUser :=
  (filterChain now users f).mergeSort (userLe f)

/-- The provider search payload `{items/users, total_count, incomplete_results}`. -/
structure SearchResult where
  users : List GitHubUser
  total_count : Nat
  incomplete_results : Bool
deriving DecidableEq, Repr

/-- The React state of the `Index` component that the orchestration logic
reads and writes. -/
structure OrchState where
  allUsers : List GitHubUser
  filteredUsers : List GitHubUser
  totalResults : Option Nat
  error : Option String
  isLoading : Bool
  currentPage : Nat
  hasMoreResults : Bool
  searchQuery : String
  lastSearchQuery : String
  isOnHomePage : Bool
  filters : SearchFilters
deriving DecidableEq, Repr

/-- The active-filter test at the debounce decision and the
"Filters Active" badge: any of language, location, minRepos, minFollowers,
experienceLevel truthy. -/
def hasActiveFilters (f : SearchFilters) : Bool :=
  strTruthy f.language || strTruthy f.location || natTruthy f.minRepos ||
    natTruthy f.minFollowers || f.experienceLevel.isSome

/-- The query term `performFilteredSearch` synthesizes: the chosen language
lower-cased, or the broad fallback term. -/
def filteredSearchQuery (f : SearchFilters) : String :=
  if strTruthy f.language then (f.language.getD ("")).toLower else "followers:>10"

/-- `performFilteredSearch` from the main view, as a state transformer; the
outcome of the awaited `githubAPI.searchUsers` call is passed in. -/
def performFilteredSearch (st : OrchState) (outcome : Except String SearchResult) :
    OrchState :=
  let st0 := { st with isLoading := true, error := none, isOnHomePage := false }
  match outcome with
  | Except.error msg => { st0 with error := some msg, isLoading := false }
  | Except.ok r =>
      { st0 with allUsers := r.users
                 filteredUsers := r.users
                 totalResults := some r.total_count
                 lastSearchQuery := filteredSearchQuery st.filters
                 isLoading := false }

/-- `String.prototype.trim`: drop leading and trailing whitespace
(modelled over the character list so that it evaluates). -/
def strTrim (s : String) : String :=
  String.mk (((s.toList.dropWhile Char.isWhitespace).reverse.dropWhile
    Char.isWhitespace).reverse)

/-- `searchUsers(page, append)` from the main view, as a state transformer;
the call site uses perPage = 50. An empty trimmed query returns early. -/
def searchUsersStep (st : OrchState) (page : Nat) (append : Bool)
    (outcome : Except String SearchResult) : OrchState :=
  if strTrim st.searchQuery = "" then st
  else
    let q := strTrim st.searchQuery
    let st0 := { st with isLoading := true, error := none,
                         lastSearchQuery := q, isOnHomePage := false }
    match outcome with
    | Except.error msg => { st0 with error := some msg, isLoading := false }
    | Except.ok r =>
        let st1 := if append then
            { st0 with allUsers := st0.allUsers ++ r.users
                       filteredUsers := st0.filteredUsers ++ r.users }
          else
            { st0 with allUsers := r.users, filteredUsers := r.users, currentPage := 1 }
        { st1 with totalResults := some r.total_count
                   hasMoreResults := (r.users.length = 50 : Bool) &&
                     decide (page * 50 < min r.total_count 1000)
                   isLoading := false }

/-- `loadMoreResults` from the main view: guarded by `hasMoreResults` and
`isLoading`, then `searchUsers(currentPage + 1, true)`. -/
def loadMoreResults (st : OrchState) (outcome : Except String SearchResult) : OrchState :=
  if !st.hasMoreResults || st.isLoading then st
  else searchUsersStep { st with currentPage := st.currentPage + 1 }
    (st.currentPage + 1) true outcome

/-!
Theorems settling the claims, in claim order.
-/

/-- C1: the derived experience level evaluates the junior clause first and
the senior clause second: junior when age ≤ 2.5 years or repos ≤ 15, else
senior when age ≥ 5 years or repos ≥ 60, else mid; in particular a record
whose age alone qualifies junior but whose repo count alone would qualify
senior (≥ 60) resolves to junior. -/
theorem experienceLevel_clause_order (now createdMs : Int) (publicRepos : Nat) :
    (calculateExperienceLevel now createdMs publicRepos =
      if yearsActive now createdMs ≤ 5/2 ∨ publicRepos ≤ 15 then ExpLevel.junior
      else if 5 ≤ yearsActive now createdMs ∨ 60 ≤ publicRepos then ExpLevel.senior
      else ExpLevel.mid)
    ∧ (yearsActive now createdMs ≤ 5/2 → 60 ≤ publicRepos →
        calculateExperienceLevel now createdMs publicRepos = ExpLevel.junior) := by
  constructor
  · rfl
  · intro h1 _
    unfold calculateExperienceLevel
    rw [if_pos (Or.inl h1)]

/-- Witness for C1: an account exactly 2 years old with 80 public repos
(repo count alone would qualify senior) is classified junior. -/
theorem experienceLevel_clause_order_witness :
    calculateExperienceLevel (2 * msPerYear) 0 80 = ExpLevel.junior :=
  (experienceLevel_clause_order (2 * msPerYear) 0 80).2
    (by unfold yearsActive msPerYear; norm_num) (by norm_num)

/-- C3: the built query string is the base term, then the language, location,
minRepos and minFollowers clauses in that order (each present exactly when its
field is truthy and depending only on its own field), then the fixed
" type:user" suffix; the experienceLevel field never contributes a clause. -/
theorem buildQuery_clause_decomposition (f : SearchFilters) :
    buildQuery f = f.query ++ langClause f ++ locClause f ++ reposClause f ++
      followersClause f ++ " type:user"
    ∧ (∀ lvl, buildQuery { f with experienceLevel := lvl } = buildQuery f)
    ∧ (∀ g : SearchFilters, f = g → buildQuery f = buildQuery g) := by
  refine ⟨?_, fun lvl => rfl, fun g hg => by rw [hg]⟩
  have m1 : ∀ r : String, ("\"" : String) ++ (" repos:>=" ++ r) = "\" repos:>=" ++ r := by
    intro r; rw [← String.append_assoc]; rfl
  have m2 : ∀ r : String, ("\"" : String) ++ (" followers:>=" ++ r) = "\" followers:>=" ++ r := by
    intro r; rw [← String.append_assoc]; rfl
  have m3 : ("\"" : String) ++ " type:user" = "\" type:user" := by rfl
  unfold buildQuery langClause locClause reposClause followersClause
  cases hla : strTruthy f.language <;> cases hlo : strTruthy f.location <;>
    cases hr : natTruthy f.minRepos <;> cases hf : natTruthy f.minFollowers <;>
    simp [hla, hlo, hr, hf, String.append_assoc, m1, m2, m3]

/-- Witness for C3 (its only hypothesis is the trivial equality in the purity
conjunct): a concrete filter object with every optional field set. -/
theorem buildQuery_clause_decomposition_witness :
    buildQuery { query := "dev", language := some "rust", location := some "New York",
                 minRepos := some 5, minFollowers := some 7, sortBy := none,
                 order := none, experienceLevel := some ExpLevel.mid }
      = "dev language:rust location:\"New York\" repos:>=5 followers:>=7 type:user" := by
  have h := (buildQuery_clause_decomposition
    { query := "dev", language := some "rust", location := some "New York",
      minRepos := some 5, minFollowers := some 7, sortBy := none,
      order := none, experienceLevel := some ExpLevel.mid }).1
  rw [h]
  rfl

/-- C4: a cache read at time `now` of an entry stored at `ts` is absent (and
the entry removed) exactly when `now - ts > CACHE_DURATION` (5 minutes);
otherwise — including at exactly `now - ts = CACHE_DURATION`, since the
comparison is strict — the stored payload is returned and the cache is
untouched. -/
theorem getCachedData_ttl {α : Type} (c : Cache α) (k : String) (d : α) (ts now : Int)
    (hfind : cacheFind c k = some (d, ts)) :
    (now - ts > CACHE_DURATION → getCachedData c k now = (none, cacheRemove c k))
    ∧ (now - ts ≤ CACHE_DURATION → getCachedData c k now = (some d, c))
    ∧ (now - ts = CACHE_DURATION → getCachedData c k now = (some d, c)) := by
  have key : getCachedData c k now
      = if now - ts > CACHE_DURATION then (none, cacheRemove c k) else (some d, c) := by
    simp only [getCachedData, hfind]
  refine ⟨fun h => ?_, fun h => ?_, fun h => ?_⟩
  · rw [key, if_pos h]
  · rw [key, if_neg (not_lt.mpr h)]
  · rw [key, if_neg (not_lt.mpr (le_of_eq h))]

/-- Witness for C4: an entry stored at time 0 read at exactly the TTL
boundary (300000 ms) is still returned present. -/
theorem getCachedData_ttl_witness :
    getCachedData ([ ("k", 5, 0) ] : Cache Nat) ("k") 300000 = (some 5, [ ("k", 5, 0) ]) :=
  (getCachedData_ttl ([ ("k", 5, 0) ] : Cache Nat) ("k") 5 0 300000 (by rfl)).2.2 (by decide)

/-- C10: a minRepos or minFollowers value of 0 behaves exactly as an unset
field everywhere the field is consulted: the remote query string gains no
clause, the client-side filter pass is unchanged, and the active-filter test
of the orchestrator does not count it. -/
theorem zero_thresholds_inactive (f : SearchFilters) (users : List GitHubUser) (now : Int) :
    buildQuery { f with minRepos := some 0 } = buildQuery { f with minRepos := none }
    ∧ buildQuery { f with minFollowers := some 0 } = buildQuery { f with minFollowers := none }
    ∧ applyClientSideFilters now users { f with minRepos := some 0 }
        = applyClientSideFilters now users { f with minRepos := none }
    ∧ applyClientSideFilters now users { f with minFollowers := some 0 }
        = applyClientSideFilters now users { f with minFollowers := none }
    ∧ hasActiveFilters { f with minRepos := some 0 }
        = hasActiveFilters { f with minRepos := none }
    ∧ hasActiveFilters { f with minFollowers := some 0 }
        = hasActiveFilters { f with minFollowers := none } :=
  ⟨rfl, rfl, rfl, rfl, rfl, rfl⟩

/-- A concrete 429 response (GitHub secondary rate limit status). -/
def resp429 : HttpResponse Nat :=
  { ok := false, status := 429, statusText := "Too Many Requests",
    headers := { remaining := some "0", reset := some "1700000000", total := some "60" },
    body := 0 }

/-- A concrete 403 response. -/
def resp403 : HttpResponse Nat :=
  { ok := false, status := 403, statusText := "Forbidden",
    headers := { remaining := some "0", reset := some "1700000000", total := some "60" },
    body := 0 }

/-- C2 counterexample: on a cache miss, a 429 response — quota-exhaustion
class per the claim — is NOT reported as the rate-limit failure: the code
tests only status 403, so 429 yields the generic request failure. -/
theorem fetchWithCache_429_counterexample :
    (fetchWithCache { cache := [], rateLimit := none } ("u") 0 resp429).1
      = Except.error (FetchError.requestFailed 429 ("Too Many Requests"))
    ∧ FetchError.requestFailed 429 ("Too Many Requests") ≠ FetchError.rateLimitExceeded
    ∧ (fetchWithCache { cache := [], rateLimit := none } ("u") 0 resp429).1
      ≠ Except.error FetchError.rateLimitExceeded := by
  refine ⟨rfl, by decide, ?_⟩
  intro h
  rw [show (fetchWithCache { cache := [], rateLimit := none } ("u") 0 resp429).1
      = Except.error (FetchError.requestFailed 429 ("Too Many Requests")) from rfl] at h
  injection h with h2
  exact absurd h2 (by decide)

/-- C2 (amended): on a cache miss the rate-limit tracker is updated from the
response headers regardless of success or failure and exactly one network
exchange happens; quota exhaustion is detected only for status 403 (which
fails with the rate-limit error); any other non-success status — including
429 — fails with the generic request failure carrying status and statusText;
a success decodes the body, caches it under the request key, and returns it. -/
theorem fetchWithCache_miss_behaviour {α : Type} (st : ClientState α) (url : String)
    (now : Int) (resp : HttpResponse α)
    (hmiss : (getCachedData st.cache (getCacheKey url) now).1 = none) :
    ((fetchWithCache st url now resp).2.1.rateLimit
        = updateRateLimit st.rateLimit resp.headers)
    ∧ ((fetchWithCache st url now resp).2.2 = 1)
    ∧ (resp.ok = false → resp.status = 403 →
        (fetchWithCache st url now resp).1 = Except.error FetchError.rateLimitExceeded)
    ∧ (resp.ok = false → resp.status ≠ 403 →
        (fetchWithCache st url now resp).1
          = Except.error (FetchError.requestFailed resp.status resp.statusText))
    ∧ (resp.ok = true →
        (fetchWithCache st url now resp).1 = Except.ok resp.body
        ∧ cacheFind (fetchWithCache st url now resp).2.1.cache (getCacheKey url)
            = some (resp.body, now)) := by
  cases hok : resp.ok <;> by_cases h403 : resp.status = 403 <;>
    simp [fetchWithCache, hmiss, hok, h403, cacheSet, cacheFind]

/-- Witness for C2: a 403 response on an empty cache produces the rate-limit
failure and still updates the tracker from the headers. -/
theorem fetchWithCache_miss_behaviour_witness :
    (fetchWithCache { cache := [], rateLimit := none } ("u") 0 resp403).1
      = Except.error FetchError.rateLimitExceeded
    ∧ (fetchWithCache { cache := [], rateLimit := none } ("u") 0 resp403).2.1.rateLimit
      = updateRateLimit none resp403.headers :=
  ⟨(fetchWithCache_miss_behaviour { cache := [], rateLimit := none } ("u") 0 resp403
      (by rfl)).2.2.1 rfl rfl,
   (fetchWithCache_miss_behaviour { cache := [], rateLimit := none } ("u") 0 resp403
      (by rfl)).1⟩

/-- A fresh cache hit returns the stored payload with no network exchange
and the client state — cache and rate-limit singleton — unchanged. -/
lemma fetchWithCache_hit {α : Type} (st : ClientState α) (url : String) (now : Int)
    (resp : HttpResponse α) (d : α) (ts : Int)
    (hfind : cacheFind st.cache (getCacheKey url) = some (d, ts))
    (hfresh : now - ts ≤ CACHE_DURATION) :
    fetchWithCache st url now resp = (Except.ok d, st, 0) := by
  have hget : getCachedData st.cache (getCacheKey url) now = (some d, st.cache) := by
    simp only [getCachedData, hfind]
    rw [if_neg (not_lt.mpr hfresh)]
  simp only [fetchWithCache, hget]

/-- C5: a request whose key is fresh in the cache returns the cached payload
with zero network exchanges and the stored RateLimitState untouched; in
particular two identical getUser calls within the TTL make the second call a
pure cache read: zero exchanges, state (hence RateLimitState) unchanged. -/
theorem cache_hit_no_network {α : Type} (st : ClientState α) (username url : String)
    (now now2 : Int) (resp resp2 : HttpResponse α) (d : α) (ts : Int) :
    (cacheFind st.cache (getCacheKey url) = some (d, ts) → now - ts ≤ CACHE_DURATION →
      fetchWithCache st url now resp = (Except.ok d, st, 0))
    ∧ (cacheFind st.cache (getCacheKey (GITHUB_API_BASE ++ "/users/" ++ username)) = none →
      resp.ok = true → now2 - now ≤ CACHE_DURATION →
      getUser ((getUser st username now resp).2.1) username now2 resp2
        = (Except.ok resp.body, (getUser st username now resp).2.1, 0)) := by
  constructor
  · exact fun hfind hfresh => fetchWithCache_hit st url now resp d ts hfind hfresh
  · intro hmiss hok hfresh
    have h1 : getCachedData st.cache (getCacheKey (GITHUB_API_BASE ++ "/users/" ++ username)) now
        = (none, st.cache) := by
      simp only [getCachedData, hmiss]
    have hst1 : (getUser st username now resp).2.1
        = { cache := cacheSet st.cache (getCacheKey (GITHUB_API_BASE ++ "/users/" ++ username))
              resp.body now,
            rateLimit := updateRateLimit st.rateLimit resp.headers } := by
      simp only [getUser, fetchWithCache, h1, hok, Bool.not_true, Bool.false_eq_true,
        if_false]
    have hfind2 : cacheFind ((getUser st username now resp).2.1).cache
        (getCacheKey (GITHUB_API_BASE ++ "/users/" ++ username)) = some (resp.body, now) := by
      rw [hst1]
      simp [cacheFind, cacheSet, List.find?_cons_of_pos]
    exact fetchWithCache_hit ((getUser st username now resp).2.1)
      (GITHUB_API_BASE ++ "/users/" ++ username) now2 resp2 resp.body now hfind2 hfresh

/-- A concrete successful user-profile response. -/
def respOk : HttpResponse Nat :=
  { ok := true, status := 200, statusText := "OK",
    headers := { remaining := some "59", reset := some "1700000000", total := some "60" },
    body := 7 }

/-- Witness for C5: getUser("torvalds") issued twice within the TTL — the
second call returns the first call's body, changes nothing, and performs
zero network exchanges. -/
theorem cache_hit_no_network_witness :
    getUser ((getUser { cache := [], rateLimit := none } ("torvalds") 0 respOk).2.1)
        ("torvalds") 1000 respOk
      = (Except.ok 7,
         (getUser { cache := [], rateLimit := none } ("torvalds") 0 respOk).2.1, 0) :=
  (cache_hit_no_network { cache := [], rateLimit := none } ("torvalds") ("x") 0 1000
    respOk respOk 7 0).2 (by rfl) (by rfl) (by decide)

/-- C6: the rate-limit tracker's stored state is overwritten only when all
three rate headers are truthy; a missing header leaves the prior state
untouched; when updated, the reset epoch-seconds value is multiplied by
1000 into milliseconds. -/
theorem updateRateLimit_headers (st : Option RateLimitInfo) (h : RateHeaders) :
    ((h.remaining = none ∨ h.reset = none ∨ h.total = none) → updateRateLimit st h = st)
    ∧ (updateRateLimit st h ≠ st →
        strTruthy h.remaining = true ∧ strTruthy h.reset = true ∧ strTruthy h.total = true)
    ∧ (strTruthy h.remaining = true → strTruthy h.reset = true → strTruthy h.total = true →
        updateRateLimit st h
          = some { remaining := parseIntD (h.remaining.getD (""))
                   reset := (parseIntD (h.reset.getD ("")) : Int) * 1000
                   total := parseIntD (h.total.getD ("")) }) := by
  refine ⟨fun hm => ?_, fun hne => ?_, fun h1 h2 h3 => ?_⟩
  · have hc : (strTruthy h.remaining && strTruthy h.reset && strTruthy h.total) = false := by
      rcases hm with hm | hm | hm <;> simp [hm, strTruthy]
    unfold updateRateLimit
    simp [hc]
  · by_cases hc : (strTruthy h.remaining && strTruthy h.reset && strTruthy h.total) = true
    · simp only [Bool.and_eq_true] at hc
      exact ⟨hc.1.1, hc.1.2, hc.2⟩
    · exfalso
      apply hne
      unfold updateRateLimit
      rw [if_neg hc]
  · unfold updateRateLimit
    rw [if_pos (by simp [h1, h2, h3])]

/-- Witness for C6: all three headers present and truthy — the state is
overwritten and the reset seconds value 1000 becomes 1000000 ms. -/
theorem updateRateLimit_headers_witness :
    updateRateLimit none { remaining := some "42", reset := some "1000", total := some "60" }
      = some { remaining := 42, reset := 1000000, total := 60 } :=
  ((updateRateLimit_headers none
      { remaining := some "42", reset := some "1000", total := some "60" }).2.2
    (by rfl) (by rfl) (by rfl)).trans (by rfl)

/-- C7: every failed search operation — both the filter-triggered search and
the free-text search — transitions to the error state with the failure
message while the previously visible ResultSet (allUsers, filteredUsers,
totalResults) is retained unchanged. -/
theorem orchestrator_error_preserves_results (st : OrchState) (msg : String)
    (page : Nat) (append : Bool) :
    ((performFilteredSearch st (Except.error msg)).allUsers = st.allUsers
      ∧ (performFilteredSearch st (Except.error msg)).filteredUsers = st.filteredUsers
      ∧ (performFilteredSearch st (Except.error msg)).totalResults = st.totalResults
      ∧ (performFilteredSearch st (Except.error msg)).error = some msg
      ∧ (performFilteredSearch st (Except.error msg)).isLoading = false)
    ∧ (strTrim st.searchQuery ≠ "" →
      (searchUsersStep st page append (Except.error msg)).allUsers = st.allUsers
      ∧ (searchUsersStep st page append (Except.error msg)).filteredUsers = st.filteredUsers
      ∧ (searchUsersStep st page append (Except.error msg)).totalResults = st.totalResults
      ∧ (searchUsersStep st page append (Except.error msg)).error = some msg
      ∧ (searchUsersStep st page append (Except.error msg)).isLoading = false) := by
  constructor
  · exact ⟨rfl, rfl, rfl, rfl, rfl⟩
  · intro hq
    unfold searchUsersStep
    rw [if_neg hq]
    exact ⟨rfl, rfl, rfl, rfl, rfl⟩

/-- The initial filter object of the main view. -/
def defaultFilters : SearchFilters :=
  { query := "", language := none, location := none, minRepos := none,
    minFollowers := none, sortBy := some SortBy.followers,
    order := some SortOrder.desc, experienceLevel := none }

/-- A concrete profile record used by witnesses. -/
def sampleUser : GitHubUser :=
  { id := 1, login := "torvalds", avatar_url := "a", html_url := "h", name := none,
    company := none, blog := none, location := some "Portland", email := none,
    bio := some "kernel", public_repos := 5, public_gists := 0, followers := 100,
    following := 0, created_at := 0, updated_at := 0 }

/-- A concrete orchestrator state used by witnesses: one loaded page, a
pending non-empty query, more results available, not loading. -/
def sampleState : OrchState :=
  { allUsers := [sampleUser], filteredUsers := [sampleUser], totalResults := some 1,
    error := none, isLoading := false, currentPage := 1, hasMoreResults := true,
    searchQuery := "linux", lastSearchQuery := "linux", isOnHomePage := false,
    filters := defaultFilters }

/-- Witness for C7: a failing search on a state holding one user leaves the
visible list intact and surfaces the message. -/
theorem orchestrator_error_preserves_results_witness :
    (performFilteredSearch sampleState (Except.error ("boom"))).filteredUsers = [sampleUser]
    ∧ (performFilteredSearch sampleState (Except.error ("boom"))).error = some ("boom")
    ∧ (searchUsersStep sampleState 2 true (Except.error ("boom"))).filteredUsers
        = [sampleUser] := by
  have h := orchestrator_error_preserves_results sampleState ("boom") 2 true
  exact ⟨h.1.2.1, h.1.2.2.2.1, (h.2 (by decide)).2.1⟩

/-- A successful append-mode `searchUsers(page, true)` call: the new records
are appended to both lists and the pagination fields are recomputed. -/
lemma searchUsersStep_append (st : OrchState) (page : Nat) (r : SearchResult)
    (hq : strTrim st.searchQuery ≠ "") :
    searchUsersStep st page true (Except.ok r)
      = { st with allUsers := st.allUsers ++ r.users
                  filteredUsers := st.filteredUsers ++ r.users
                  totalResults := some r.total_count
                  error := none
                  lastSearchQuery := strTrim st.searchQuery
                  isOnHomePage := false
                  isLoading := false
                  hasMoreResults := (r.users.length = 50 : Bool) &&
                    decide (page * 50 < min r.total_count 1000) } := by
  unfold searchUsersStep
  rw [if_neg hq]
  rfl

/-- C9: a "load more" taken while not loading and with more results
available issues the next page (incremented page number) and appends the
returned records after the previously loaded ones, whose order is
undisturbed; the `hasMoreResults` flag offered afterwards requires a full
page of 50 and the next offset below `min(total_count, 1000)`; a full page
appends exactly 50 records. -/
theorem loadMore_appends (st : OrchState) (r : SearchResult)
    (hmore : st.hasMoreResults = true) (hload : st.isLoading = false)
    (hq : strTrim st.searchQuery ≠ "") :
    ((loadMoreResults st (Except.ok r)).allUsers = st.allUsers ++ r.users)
    ∧ ((loadMoreResults st (Except.ok r)).filteredUsers = st.filteredUsers ++ r.users)
    ∧ ((loadMoreResults st (Except.ok r)).allUsers.take st.allUsers.length = st.allUsers)
    ∧ ((loadMoreResults st (Except.ok r)).currentPage = st.currentPage + 1)
    ∧ ((loadMoreResults st (Except.ok r)).hasMoreResults
        = ((r.users.length = 50 : Bool) &&
            decide ((st.currentPage + 1) * 50 < min r.total_count 1000)))
    ∧ (r.users.length = 50 →
        (loadMoreResults st (Except.ok r)).allUsers.length = st.allUsers.length + 50) := by
  have key : loadMoreResults st (Except.ok r)
      = searchUsersStep { st with currentPage := st.currentPage + 1 }
          (st.currentPage + 1) true (Except.ok r) := by
    simp [loadMoreResults, hmore, hload]
  have happ := searchUsersStep_append { st with currentPage := st.currentPage + 1 }
    (st.currentPage + 1) r hq
  rw [key, happ]
  refine ⟨rfl, rfl, List.take_left st.allUsers r.users, rfl, rfl, fun hlen => ?_⟩
  show (st.allUsers ++ r.users).length = st.allUsers.length + 50
  rw [List.length_append, hlen]

/-- Witness for C9: on the sample state (page 1 loaded, more available), a
successful ok-response with one record is appended after the existing
record and the page counter becomes 2. -/
theorem loadMore_appends_witness :
    (loadMoreResults sampleState
        (Except.ok { users := [sampleUser], total_count := 200,
                     incomplete_results := false })).allUsers = [sampleUser, sampleUser]
    ∧ (loadMoreResults sampleState
        (Except.ok { users := [sampleUser], total_count := 200,
                     incomplete_results := false })).currentPage = 2 := by
  have h := loadMore_appends sampleState
    { users := [sampleUser], total_count := 200, incomplete_results := false }
    (by rfl) (by rfl) (by decide)
  exact ⟨h.1, h.2.2.2.1⟩

/-- Membership survives removing one conditional filter stage. -/
lemma mem_of_mem_filterStep {g : Bool} {p : GitHubUser → Bool} {l : List GitHubUser}
    {x : GitHubUser} (h : x ∈ filterStep g p l) : x ∈ l := by
  unfold filterStep at h
  split at h
  · exact (List.mem_filter.mp h).1
  · exact h

/-- An element of an active filter stage's output satisfies its predicate. -/
lemma pred_of_mem_filterStep {g : Bool} {p : GitHubUser → Bool} {l : List GitHubUser}
    {x : GitHubUser} (hg : g = true) (h : x ∈ filterStep g p l) : p x = true := by
  subst hg
  unfold filterStep at h
  simp only [if_true] at h
  exact (List.mem_filter.mp h).2

/-- A filter stage is the identity on a list all of whose elements already
satisfy the predicate whenever the stage is active. -/
lemma filterStep_eq_self {g : Bool} {p : GitHubUser → Bool} {l : List GitHubUser}
    (h : g = true → ∀ x ∈ l, p x = true) : filterStep g p l = l := by
  unfold filterStep
  cases g
  · rfl
  · exact List.filter_eq_self.mpr (h rfl)

/-- Every element the filter chain keeps passes the language stage when it
is active. -/
lemma filterChain_pred_lang {now : Int} {l : List GitHubUser} {f : SearchFilters}
    {x : GitHubUser} (hg : strTruthy f.language = true)
    (h : x ∈ filterChain now l f) : langFilterPred f x = true := by
  unfold filterChain at h
  exact pred_of_mem_filterStep hg
    (mem_of_mem_filterStep (mem_of_mem_filterStep (mem_of_mem_filterStep
      (mem_of_mem_filterStep h))))

/-- Every element the filter chain keeps passes the location stage when it
is active. -/
lemma filterChain_pred_loc {now : Int} {l : List GitHubUser} {f : SearchFilters}
    {x : GitHubUser} (hg : strTruthy f.location = true)
    (h : x ∈ filterChain now l f) : locFilterPred f x = true := by
  unfold filterChain at h
  exact pred_of_mem_filterStep hg
    (mem_of_mem_filterStep (mem_of_mem_filterStep (mem_of_mem_filterStep h)))

/-- Every element the filter chain keeps passes the minRepos stage when it
is active. -/
lemma filterChain_pred_repo {now : Int} {l : List GitHubUser} {f : SearchFilters}
    {x : GitHubUser} (hg : natTruthy f.minRepos = true)
    (h : x ∈ filterChain now l f) : repoFilterPred f x = true := by
  unfold filterChain at h
  exact pred_of_mem_filterStep hg (mem_of_mem_filterStep (mem_of_mem_filterStep h))

/-- Every element the filter chain keeps passes the minFollowers stage when
it is active. -/
lemma filterChain_pred_fol {now : Int} {l : List GitHubUser} {f : SearchFilters}
    {x : GitHubUser} (hg : natTruthy f.minFollowers = true)
    (h : x ∈ filterChain now l f) : folFilterPred f x = true := by
  unfold filterChain at h
  exact pred_of_mem_filterStep hg (mem_of_mem_filterStep h)

/-- Every element the filter chain keeps passes the experience stage when it
is active. -/
lemma filterChain_pred_exp {now : Int} {l : List GitHubUser} {f : SearchFilters}
    {x : GitHubUser} (hg : f.experienceLevel.isSome = true)
    (h : x ∈ filterChain now l f) : expFilterPred now f x = true := by
  unfold filterChain at h
  exact pred_of_mem_filterStep hg h

/-- The filter chain is the identity on a list whose elements pass every
active stage. -/
lemma filterChain_eq_self {now : Int} {l : List GitHubUser} {f : SearchFilters}
    (h1 : strTruthy f.language = true → ∀ x ∈ l, langFilterPred f x = true)
    (h2 : strTruthy f.location = true → ∀ x ∈ l, locFilterPred f x = true)
    (h3 : natTruthy f.minRepos = true → ∀ x ∈ l, repoFilterPred f x = true)
    (h4 : natTruthy f.minFollowers = true → ∀ x ∈ l, folFilterPred f x = true)
    (h5 : f.experienceLevel.isSome = true → ∀ x ∈ l, expFilterPred now f x = true) :
    filterChain now l f = l := by
  unfold filterChain
  rw [filterStep_eq_self h1, filterStep_eq_self h2, filterStep_eq_self h3,
      filterStep_eq_self h4, filterStep_eq_self h5]

/-- The comparator relation is transitive. -/
lemma userLe_trans (f : SearchFilters) : ∀ a b c : GitHubUser,
    userLe f a b = true → userLe f b c = true → userLe f a c = true := by
  intro a b c hab hbc
  unfold userLe at *
  by_cases h : f.order = some SortOrder.desc <;> simp [h] at * <;> omega

/-- The comparator relation is total. -/
lemma userLe_total (f : SearchFilters) : ∀ a b : GitHubUser,
    (userLe f a b || userLe f b a) = true := by
  intro a b
  unfold userLe
  by_cases h : f.order = some SortOrder.desc <;> simp [h] <;> omega

/-- C8: the client-side filter-and-sort pass is idempotent — applying it to
its own output with the same filters returns that output unchanged, in the
same order. -/
theorem applyClientSideFilters_idem (now : Int) (users : List GitHubUser)
    (f : SearchFilters) :
    applyClientSideFilters now (applyClientSideFilters now users f) f
      = applyClientSideFilters now users f := by
  unfold applyClientSideFilters
  have hmem : ∀ x ∈ (filterChain now users f).mergeSort (userLe f),
      x ∈ filterChain now users f := fun x hx => List.mem_mergeSort.mp hx
  have hchain : filterChain now ((filterChain now users f).mergeSort (userLe f)) f
      = (filterChain now users f).mergeSort (userLe f) :=
    filterChain_eq_self
      (fun hg x hx => filterChain_pred_lang hg (hmem x hx))
      (fun hg x hx => filterChain_pred_loc hg (hmem x hx))
      (fun hg x hx => filterChain_pred_repo hg (hmem x hx))
      (fun hg x hx => filterChain_pred_fol hg (hmem x hx))
      (fun hg x hx => filterChain_pred_exp hg (hmem x hx))
  rw [hchain]
  exact List.mergeSort_of_sorted
    (List.sorted_mergeSort (userLe_trans f) (userLe_total f) (filterChain now users f))
